import Mathlib

/-! # CAR-GAMES: the game core of `script.js`

A shallow embedding of the game state and of the functions of `src/script.js`
that read or write it: the key handlers `onKeyDown` / `onKeyUp`, the frame
tick `updateGame` (with its `forEach` over the obstacle registry and the
`splice` performed inside it), `checkCollision`, `gameOver`, `createObstacle`,
`animate` and `resetGame`.

Every number is a rational (`ℚ`).  The lane position `car.position.x` is
stepped as the script steps it, in IEEE 754 binary64: each step is the exact
difference or sum rounded to the nearest double (`roundDouble`), and
`TURNING_SPEED` is the double that the literal `0.05` denotes; the guard of a
step compares the position with the exact bound `±4`, so rounding decides
whether one more step is taken.  Speed and depth are computed exactly, and
`score` only ever receives `Math.floor` values and is an integer.  The two
`Math.random()` draws of a tick are explicit arguments.  Scene graph, DOM and
the animation-frame handle carry no game state and are left out.
-/

namespace CarGame

/-! ## Data model -/

/-- Position of a scene object (`THREE.Vector3`). -/
structure Vector3 where
  x : ℚ
  y : ℚ
  z : ℚ
deriving DecidableEq

/-- A scene object (`THREE.Mesh`); the script only reads and writes `position`. -/
structure Mesh where
  position : Vector3
deriving DecidableEq

/-- The global variables of the script that make up the game state. -/
structure GameState where
  car : Mesh
  obstacles : List Mesh
  gameSpeed : ℚ
  score : ℤ
  isGameOver : Bool
deriving DecidableEq

/-! ## Constants -/

def LANE_WIDTH : ℚ := 4

def MAX_SPEED : ℚ := 100

def ACCELERATION : ℚ := 1 / 2

def DECELERATION : ℚ := 1 / 5

/-- The integer nearest to `r`, the even one of the two when `r` lies half way. -/
def roundHalfEven (r : ℚ) : ℤ :=
  if r - ⌊r⌋ < 1 / 2 then ⌊r⌋
  else if 1 / 2 < r - ⌊r⌋ then ⌊r⌋ + 1
  else if ⌊r⌋ % 2 = 0 then ⌊r⌋
  else ⌊r⌋ + 1

/-- The JavaScript number (IEEE 754 binary64, 53 significant bits, round to
nearest, ties to even) that an exact result `q` is stored as.  For `q ≠ 0`
with `2 ^ e ≤ |q| < 2 ^ (e + 1)` the doubles around `q` are the multiples of
`2 ^ (e - 52)`.  The exponent range is not limited: no value of the game comes
near overflow or the subnormal numbers. -/
def roundDouble (q : ℚ) : ℚ :=
  if q = 0 then 0
  else (roundHalfEven (q / 2 ^ (Int.log 2 |q| - 52)) : ℚ) * 2 ^ (Int.log 2 |q| - 52)

/-- The constant `TURNING_SPEED = 0.05`: the double nearest to `1/20`, which is
`3602879701896397 / 2 ^ 56`. -/
def TURNING_SPEED : ℚ := roundDouble (1 / 20)

/-! ## Bounding boxes -/

/-- Modelled from the spec: `THREE.Box3` of the three.js library, which is not
part of `src/`: an axis-aligned box given by its two extreme corners. -/
structure Box3 where
  min : Vector3
  max : Vector3
deriving DecidableEq

/-- Modelled from the spec: the axis-aligned box with centre `c` and half
extents `hx`, `hy`, `hz` ("from their position and fixed extents"). -/
def boxAround (c : Vector3) (hx hy hz : ℚ) : Box3 :=
  { min := { x := c.x - hx, y := c.y - hy, z := c.z - hz },
    max := { x := c.x + hx, y := c.y + hy, z := c.z + hz } }

/-- Modelled from the spec: smallest box containing both boxes (`Box3.union`). -/
def Box3.union (a b : Box3) : Box3 :=
  { min := { x := Min.min a.min.x b.min.x, y := Min.min a.min.y b.min.y,
             z := Min.min a.min.z b.min.z },
    max := { x := Max.max a.max.x b.max.x, y := Max.max a.max.y b.max.y,
             z := Max.max a.max.z b.max.z } }

/-- Modelled from the spec: `Box3.intersectsBox`, the closed-interval overlap
test on all three axes (boxes that merely touch do intersect). -/
def Box3.intersectsBox (a b : Box3) : Bool :=
  !(decide (b.max.x < a.min.x) || decide (b.min.x > a.max.x) ||
    decide (b.max.y < a.min.y) || decide (b.min.y > a.max.y) ||
    decide (b.max.z < a.min.z) || decide (b.min.z > a.max.z))

/-- Offsets of the four wheels relative to the car (`wheelPositions` in
`addWheels`). -/
def wheelPositions : List Vector3 :=
  [ { x := -1, y := 0, z := 3 / 2 },
    { x := 1, y := 0, z := 3 / 2 },
    { x := -1, y := 0, z := -(3 / 2) },
    { x := 1, y := 0, z := -(3 / 2) } ]

/-- Modelled from the spec: `new THREE.Box3().setFromObject(car)`.  The car is
a `BoxGeometry(2, 1, 4)` with four child wheels, each a
`CylinderGeometry(0.4, 0.4, 0.4)` turned a quarter around the z axis, so its
axis (length 0.4) lies along x and its radius 0.4 spans y and z. -/
def carBox (car : Mesh) : Box3 :=
  wheelPositions.foldl
    (fun b w =>
      b.union (boxAround { x := car.position.x + w.x, y := car.position.y + w.y,
                           z := car.position.z + w.z } (1 / 5) (2 / 5) (2 / 5)))
    (boxAround car.position 1 (1 / 2) 2)

/-- Modelled from the spec: `new THREE.Box3().setFromObject(obstacle)` for an
obstacle, a `BoxGeometry(2, 1, 2)` without children. -/
def obstacleBox (obstacle : Mesh) : Box3 :=
  boxAround obstacle.position 1 (1 / 2) 1

/-- The function `checkCollision(obj1, obj2)`, called with the car and an obstacle. -/
def checkCollision (car obstacle : Mesh) : Bool :=
  (carBox car).intersectsBox (obstacleBox obstacle)

/-! ## Key handlers -/

/-- The handler `onKeyDown(event)`, with `key = event.key`.  The statements
`car.position.x -= TURNING_SPEED` and `car.position.x += TURNING_SPEED` store
the rounded result. -/
def onKeyDown (s : GameState) (key : String) : GameState :=
  if s.isGameOver then s
  else if key = "ArrowUp" then
    { s with gameSpeed := Min.min (s.gameSpeed + ACCELERATION) MAX_SPEED }
  else if key = "ArrowLeft" then
    if s.car.position.x > -LANE_WIDTH then
      { s with car := { position := { s.car.position with
                                      x := roundDouble (s.car.position.x - TURNING_SPEED) } } }
    else s
  else if key = "ArrowRight" then
    if s.car.position.x < LANE_WIDTH then
      { s with car := { position := { s.car.position with
                                      x := roundDouble (s.car.position.x + TURNING_SPEED) } } }
    else s
  else s

/-- The handler `onKeyUp(event)`, with `key = event.key`. -/
def onKeyUp (s : GameState) (key : String) : GameState :=
  if key = "ArrowUp" then
    { s with gameSpeed := Max.max (s.gameSpeed - DECELERATION) 0 }
  else s

/-! ## Obstacles and the frame tick -/

/-- The function `createObstacle()`; `rLane` is its `Math.random()` draw. -/
def createObstacle (s : GameState) (rLane : ℚ) : GameState :=
  { s with obstacles :=
      s.obstacles ++ [{ position := { x := ((⌊rLane * 3⌋ - 1 : ℤ) : ℚ) * LANE_WIDTH,
                                      y := 1 / 2, z := -500 } }] }

/-- The function `gameOver()`. -/
def gameOver (s : GameState) : GameState :=
  { s with isGameOver := true }

/-- The assignment `obstacle.position.z += gameSpeed * 0.1`. -/
def moveObstacle (obstacle : Mesh) (gameSpeed : ℚ) : Mesh :=
  { position := { obstacle.position with
                  z := obstacle.position.z + gameSpeed * (1 / 10) } }

/-- One invocation of the arrow function passed to `obstacles.forEach` in
`updateGame`, for the element found at `index`.  When the array has no element
at `index` any more, `forEach` does not call the function. -/
def obstacleCallback (s : GameState) (index : Nat) : GameState :=
  match s.obstacles[index]? with
  | none => s
  | some obstacle =>
    let moved := moveObstacle obstacle s.gameSpeed
    let s1 := { s with obstacles := s.obstacles.set index moved }
    let s2 := if checkCollision s1.car moved then gameOver s1 else s1
    if moved.position.z > 20 then
      { s2 with obstacles := s2.obstacles.eraseIdx index }
    else s2

/-- The iterations `index, index + 1, ..., index + n - 1` of `Array.prototype.forEach`:
the index always advances by one, also after a `splice` shifted the rest of the
array down. -/
def forEachFrom : Nat → Nat → GameState → GameState
  | 0, _, s => s
  | n + 1, index, s => forEachFrom n (index + 1) (obstacleCallback s index)

/-- The call `obstacles.forEach(...)` of `updateGame`: the number of iterations
is the length of the array when the call starts. -/
def forEachObstacles (s : GameState) : GameState :=
  forEachFrom s.obstacles.length 0 s

/-- The function `updateGame()`; `rSpawn` is the draw compared with `0.02`,
`rLane` the draw of `createObstacle`. -/
def updateGame (s : GameState) (rSpawn rLane : ℚ) : GameState :=
  if s.isGameOver then s
  else
    let s1 := { s with score := s.score + ⌊s.gameSpeed⌋ }
    let s2 := forEachObstacles s1
    if rSpawn < 1 / 50 then createObstacle s2 rLane else s2

/-- The function `animate()`: it schedules the next frame and runs one
`updateGame` at once. -/
def animate (s : GameState) (rSpawn rLane : ℚ) : GameState :=
  updateGame s rSpawn rLane

/-- The function `resetGame()`; its last statement is `animate()`, whose
`updateGame` uses the draws `rSpawn`, `rLane`. -/
def resetGame (s : GameState) (rSpawn rLane : ℚ) : GameState :=
  animate
    { s with score := 0, gameSpeed := 0, isGameOver := false,
             car := { position := { x := 0, y := 1 / 2, z := 0 } },
             obstacles := [] }
    rSpawn rLane

/-- The variables as the script declares them, with the car as `createCar`
makes it. -/
def initialState : GameState :=
  { car := { position := { x := 0, y := 1 / 2, z := 0 } },
    obstacles := [], gameSpeed := 0, score := 0, isGameOver := false }

/-! ## Events -/

/-- What the browser can deliver to the script once it is loaded. -/
inductive Event where
  | keyDown (key : String)
  | keyUp (key : String)
  | frame (rSpawn rLane : ℚ)
  | restart (rSpawn rLane : ℚ)

/-- The listener that an event runs. -/
def step (s : GameState) : Event → GameState
  | Event.keyDown key => onKeyDown s key
  | Event.keyUp key => onKeyUp s key
  | Event.frame rSpawn rLane => animate s rSpawn rLane
  | Event.restart rSpawn rLane => resetGame s rSpawn rLane

/-- The state after a sequence of events. -/
def run (s : GameState) (events : List Event) : GameState :=
  events.foldl step s

/-! ## Invariants and sample states -/

/-- No obstacle of the registry is past the removal threshold `z > 20`. -/
def noneBehind (s : GameState) : Prop :=
  ∀ o ∈ s.obstacles, o.position.z ≤ 20

/-- Two states with the same registry and the same speed. -/
def sameRegistry (s t : GameState) : Prop :=
  s.obstacles = t.obstacles ∧ s.gameSpeed = t.gameSpeed

/-- An obstacle in lane `x` at depth `z`. -/
def obstacleAt (x z : ℚ) : Mesh :=
  { position := { x := x, y := 1 / 2, z := z } }

/-- A state with the car at the origin of the road, the given registry, speed
and game-over flag, and score `7`. -/
def sampleState (obstacles : List Mesh) (gameSpeed : ℚ) (isGameOver : Bool) : GameState :=
  { car := { position := { x := 0, y := 1 / 2, z := 0 } },
    obstacles := obstacles, gameSpeed := gameSpeed, score := 7, isGameOver := isGameOver }

/-! ## Frame lemmas for the tick -/

theorem carBox_eq (car : Mesh) : carBox car = boxAround car.position (6 / 5) (1 / 2) 2 := by
  simp only [carBox, wheelPositions, List.foldl, Box3.union, boxAround]
  congr 2 <;> (simp only [min_def, max_def]; split_ifs <;> linarith)

theorem checkCollision_iff (car o : Mesh) :
    checkCollision car o = true ↔
      (|o.position.x - car.position.x| ≤ 11 / 5 ∧ |o.position.y - car.position.y| ≤ 1 ∧
        |o.position.z - car.position.z| ≤ 3) := by
  simp only [checkCollision, carBox_eq, obstacleBox, boxAround, Box3.intersectsBox,
    Bool.not_eq_true', Bool.or_eq_false_iff, decide_eq_false_iff_not, not_lt, abs_le, gt_iff_lt]
  constructor
  · rintro ⟨⟨⟨⟨⟨h1, h2⟩, h3⟩, h4⟩, h5⟩, h6⟩
    refine ⟨⟨?_, ?_⟩, ⟨?_, ?_⟩, ⟨?_, ?_⟩⟩ <;> linarith
  · rintro ⟨⟨h1, h2⟩, ⟨h3, h4⟩, ⟨h5, h6⟩⟩
    refine ⟨⟨⟨⟨⟨?_, ?_⟩, ?_⟩, ?_⟩, ?_⟩, ?_⟩ <;> linarith

theorem obstacleCallback_gameSpeed (s : GameState) (k : Nat) :
    (obstacleCallback s k).gameSpeed = s.gameSpeed := by
  unfold obstacleCallback
  split
  · rfl
  · simp only [gameOver]
    split_ifs <;> rfl

theorem obstacleCallback_car (s : GameState) (k : Nat) :
    (obstacleCallback s k).car = s.car := by
  unfold obstacleCallback
  split
  · rfl
  · simp only [gameOver]
    split_ifs <;> rfl

theorem obstacleCallback_score (s : GameState) (k : Nat) :
    (obstacleCallback s k).score = s.score := by
  unfold obstacleCallback
  split
  · rfl
  · simp only [gameOver]
    split_ifs <;> rfl

theorem forEachFrom_gameSpeed (n k : Nat) (s : GameState) :
    (forEachFrom n k s).gameSpeed = s.gameSpeed := by
  induction n generalizing k s with
  | zero => rfl
  | succ n ih => rw [forEachFrom, ih, obstacleCallback_gameSpeed]

theorem forEachFrom_car (n k : Nat) (s : GameState) :
    (forEachFrom n k s).car = s.car := by
  induction n generalizing k s with
  | zero => rfl
  | succ n ih => rw [forEachFrom, ih, obstacleCallback_car]

theorem forEachFrom_score (n k : Nat) (s : GameState) :
    (forEachFrom n k s).score = s.score := by
  induction n generalizing k s with
  | zero => rfl
  | succ n ih => rw [forEachFrom, ih, obstacleCallback_score]

theorem updateGame_gameSpeed (s : GameState) (rSpawn rLane : ℚ) :
    (updateGame s rSpawn rLane).gameSpeed = s.gameSpeed := by
  unfold updateGame
  split_ifs <;> simp [createObstacle, forEachObstacles, forEachFrom_gameSpeed]

theorem updateGame_car (s : GameState) (rSpawn rLane : ℚ) :
    (updateGame s rSpawn rLane).car = s.car := by
  unfold updateGame
  split_ifs <;> simp [createObstacle, forEachObstacles, forEachFrom_car]

theorem updateGame_score (s : GameState) (rSpawn rLane : ℚ) (h : s.isGameOver = false) :
    (updateGame s rSpawn rLane).score = s.score + ⌊s.gameSpeed⌋ := by
  unfold updateGame
  simp only [h, Bool.false_eq_true, if_false]
  split_ifs <;> simp [createObstacle, forEachObstacles, forEachFrom_score]

theorem updateGame_of_over (s : GameState) (rSpawn rLane : ℚ) (h : s.isGameOver = true) :
    updateGame s rSpawn rLane = s := by
  unfold updateGame
  simp [h]

theorem resetGame_gameSpeed (s : GameState) (rSpawn rLane : ℚ) :
    (resetGame s rSpawn rLane).gameSpeed = 0 := by
  simp [resetGame, animate, updateGame_gameSpeed]

theorem resetGame_car (s : GameState) (rSpawn rLane : ℚ) :
    (resetGame s rSpawn rLane).car = { position := { x := 0, y := 1 / 2, z := 0 } } := by
  simp [resetGame, animate, updateGame_car]

/-! ## Speed stays within `[0, MAX_SPEED]` -/

theorem step_speed_bounds (s : GameState) (e : Event)
    (h : 0 ≤ s.gameSpeed ∧ s.gameSpeed ≤ 100) :
    0 ≤ (step s e).gameSpeed ∧ (step s e).gameSpeed ≤ 100 := by
  obtain ⟨h0, h1⟩ := h
  cases e with
  | keyDown key =>
    simp only [step, onKeyDown, ACCELERATION, MAX_SPEED]
    split_ifs <;> simp only [h0, h1, and_self]
    exact ⟨le_min (by linarith) (by norm_num), min_le_right _ _⟩
  | keyUp key =>
    simp only [step, onKeyUp, DECELERATION]
    split_ifs <;> simp only [h0, h1, and_self]
    exact ⟨le_max_right _ _, max_le (by linarith) (by norm_num)⟩
  | frame rSpawn rLane =>
    simp only [step, animate, updateGame_gameSpeed]
    exact ⟨h0, h1⟩
  | restart rSpawn rLane =>
    simp only [step, resetGame_gameSpeed]
    norm_num

theorem run_speed_bounds (events : List Event) (s : GameState)
    (h : 0 ≤ s.gameSpeed ∧ s.gameSpeed ≤ 100) :
    0 ≤ (run s events).gameSpeed ∧ (run s events).gameSpeed ≤ 100 := by
  induction events generalizing s with
  | nil => exact h
  | cons e es ih => exact ih (step s e) (step_speed_bounds s e h)

/-- C1: from any state with `gameSpeed = 0` (the reset state in particular,
running or over), after every finite sequence of events (ArrowUp key-downs and
key-ups in any order, and any other key, frame or restart in between)
`0 ≤ gameSpeed ≤ 100 = MAX_SPEED`. -/
theorem gameSpeed_within_bounds (s : GameState) (h : s.gameSpeed = 0) (events : List Event) :
    0 ≤ (run s events).gameSpeed ∧ (run s events).gameSpeed ≤ MAX_SPEED := by
  have := run_speed_bounds events s (by rw [h]; norm_num)
  simpa [MAX_SPEED] using this

theorem gameSpeed_within_bounds_witness :
    initialState.gameSpeed = 0 ∧
      (0 ≤ (run initialState [Event.keyDown "ArrowUp", Event.keyUp "ArrowUp",
              Event.keyUp "ArrowUp", Event.keyDown "ArrowUp"]).gameSpeed ∧
        (run initialState [Event.keyDown "ArrowUp", Event.keyUp "ArrowUp",
              Event.keyUp "ArrowUp", Event.keyDown "ArrowUp"]).gameSpeed ≤ MAX_SPEED) :=
  ⟨rfl, gameSpeed_within_bounds initialState rfl _⟩

/-! ## The lane position -/

theorem TURNING_SPEED_eq : TURNING_SPEED = 3602879701896397 / 72057594037927936 := by
  decide!

/-- C2 at its failing input: from the initial state, 81 ArrowLeft key-downs.
Eighty steps of `0.05` leave the double `-3.999999999999994`, not `-4`, so the
guard `x > -LANE_WIDTH` lets an 81st step through, and the car ends at
`-4.049999999999994`, left of `-LANE_WIDTH`. -/
theorem steering_left_leaves_road :
    (run initialState (List.replicate 80 (Event.keyDown "ArrowLeft"))).car.position.x =
        -4503599627370489 / 1125899906842624 ∧
      (run initialState (List.replicate 81 (Event.keyDown "ArrowLeft"))).car.position.x =
        -1139973655678155 / 281474976710656 ∧
      (run initialState (List.replicate 81 (Event.keyDown "ArrowLeft"))).car.position.x <
        -LANE_WIDTH := by
  decide!

/-! ## A tick after game over -/

/-- C4: in a state with `isGameOver = true`, `updateGame` returns the state
unchanged: score, gameSpeed, the car, the registry (members, order, positions)
and isGameOver are the same, and nothing is spawned whatever the draws are. -/
theorem updateGame_noop_when_over (s : GameState) (rSpawn rLane : ℚ)
    (h : s.isGameOver = true) : updateGame s rSpawn rLane = s :=
  updateGame_of_over s rSpawn rLane h

theorem updateGame_noop_when_over_witness :
    (sampleState [obstacleAt 4 (-100)] 10 true).isGameOver = true ∧
      updateGame (sampleState [obstacleAt 4 (-100)] 10 true) (1 / 100) (1 / 2) =
        sampleState [obstacleAt 4 (-100)] 10 true :=
  ⟨rfl, updateGame_noop_when_over _ _ _ rfl⟩

/-! ## Score -/

/-- C7, as stated, fails: after one ArrowUp key-down from the initial state
the game is running with `gameSpeed = 1/2 > 0`, yet a tick leaves the score
unchanged, because `Math.floor(0.5) = 0`. -/
theorem score_not_strictly_increasing :
    (run initialState [Event.keyDown "ArrowUp"]).isGameOver = false ∧
      0 < (run initialState [Event.keyDown "ArrowUp"]).gameSpeed ∧
      ¬ ((run initialState [Event.keyDown "ArrowUp"]).score <
          (updateGame (run initialState [Event.keyDown "ArrowUp"]) (1 / 2) 0).score) := by
  norm_num [updateGame, run, step, onKeyDown, initialState, forEachObstacles, forEachFrom,
    ACCELERATION, MAX_SPEED]

/-- C7, amended: in a running state with `gameSpeed ≥ 0`, one tick adds
`floor(gameSpeed)` to the score, so the score does not decrease, and it
increases strictly exactly when `gameSpeed ≥ 1`. -/
theorem score_monotone (s : GameState) (rSpawn rLane : ℚ)
    (hrun : s.isGameOver = false) (h0 : 0 ≤ s.gameSpeed) :
    (updateGame s rSpawn rLane).score = s.score + ⌊s.gameSpeed⌋ ∧
      s.score ≤ (updateGame s rSpawn rLane).score ∧
      (s.score < (updateGame s rSpawn rLane).score ↔ 1 ≤ s.gameSpeed) := by
  rw [updateGame_score s rSpawn rLane hrun]
  refine ⟨rfl, ?_, ?_⟩
  · have := Int.floor_nonneg.mpr h0
    omega
  · rw [lt_add_iff_pos_right, Int.floor_pos]

theorem score_monotone_witness :
    (sampleState [] 10 false).isGameOver = false ∧ 0 ≤ (sampleState [] 10 false).gameSpeed ∧
      ((updateGame (sampleState [] 10 false) (1 / 2) 0).score =
          (sampleState [] 10 false).score + ⌊(sampleState [] 10 false).gameSpeed⌋ ∧
        (sampleState [] 10 false).score ≤ (updateGame (sampleState [] 10 false) (1 / 2) 0).score ∧
        ((sampleState [] 10 false).score < (updateGame (sampleState [] 10 false) (1 / 2) 0).score ↔
          1 ≤ (sampleState [] 10 false).gameSpeed)) :=
  ⟨rfl, by norm_num [sampleState], score_monotone _ _ _ rfl (by norm_num [sampleState])⟩

/-! ## Reset -/

theorem resetGame_eq (s : GameState) (rSpawn rLane : ℚ) :
    resetGame s rSpawn rLane =
      { car := { position := { x := 0, y := 1 / 2, z := 0 } },
        obstacles :=
          if rSpawn < 1 / 50 then
            [{ position := { x := ((⌊rLane * 3⌋ - 1 : ℤ) : ℚ) * LANE_WIDTH,
                             y := 1 / 2, z := -500 } }]
          else [],
        gameSpeed := 0, score := 0, isGameOver := false } := by
  simp only [resetGame, animate, updateGame, forEachObstacles, forEachFrom, createObstacle,
    Bool.false_eq_true, if_false, List.length_nil, Int.floor_zero, add_zero, List.nil_append]
  split_ifs <;> rfl

/-- C8, as stated, fails: `resetGame` ends with `animate()`, which runs one
`updateGame` on the fresh state; with a spawn draw below `0.02` the registry
then holds one obstacle, and a second reset with another draw gives a
different state. -/
theorem resetGame_may_spawn :
    (resetGame initialState (1 / 100) (1 / 2)).obstacles = [obstacleAt 0 (-500)] ∧
      resetGame (resetGame initialState (1 / 100) (1 / 2)) (1 / 2) (1 / 2) ≠
        resetGame initialState (1 / 100) (1 / 2) := by
  constructor
  · norm_num [resetGame_eq, obstacleAt, LANE_WIDTH]
  · intro h
    have h2 := congrArg GameState.obstacles h
    norm_num [resetGame_eq] at h2

/-- C8, amended: from every state `resetGame` yields score `0`, gameSpeed
`0`, car position `(0, 0.5, 0)`, isGameOver `false`, and a registry that is
empty when the spawn draw of its own first tick is at least `0.02` and holds
exactly one new obstacle (depth `-500`, lane given by the second draw)
otherwise; the result does not depend on the state before, so a reset
after a reset gives the same state as that reset alone, for the same draws. -/
theorem resetGame_result (s : GameState) (r1 r2 rSpawn rLane : ℚ) :
    resetGame s rSpawn rLane =
        { car := { position := { x := 0, y := 1 / 2, z := 0 } },
          obstacles :=
            if rSpawn < 1 / 50 then
              [{ position := { x := ((⌊rLane * 3⌋ - 1 : ℤ) : ℚ) * LANE_WIDTH,
                               y := 1 / 2, z := -500 } }]
            else [],
          gameSpeed := 0, score := 0, isGameOver := false } ∧
      resetGame (resetGame s r1 r2) rSpawn rLane = resetGame s rSpawn rLane :=
  ⟨resetGame_eq s rSpawn rLane, by rw [resetGame_eq, resetGame_eq s]⟩

/-! ## Key handlers after game over -/

/-- C9 at its failing input: in a game-over state with `gameSpeed = 10`, the
ArrowUp key-up handler lowers gameSpeed to `9.8`; `onKeyUp` has no
`isGameOver` test, unlike `onKeyDown`. -/
theorem onKeyUp_when_over_changes_speed :
    (sampleState [] 10 true).isGameOver = true ∧
      (onKeyUp (sampleState [] 10 true) "ArrowUp").gameSpeed = 49 / 5 ∧
      (onKeyUp (sampleState [] 10 true) "ArrowUp").gameSpeed ≠
        (sampleState [] 10 true).gameSpeed := by
  norm_num [onKeyUp, sampleState, DECELERATION]

theorem onKeyDown_of_over (s : GameState) (key : String) (h : s.isGameOver = true) :
    onKeyDown s key = s := by
  simp [onKeyDown, h]

/-! ## The registry during a tick -/

theorem eraseIdx_set_self (l : List Mesh) (k : Nat) (a : Mesh) :
    (l.set k a).eraseIdx k = l.eraseIdx k := by
  induction l generalizing k with
  | nil => rfl
  | cons b l ih =>
    cases k with
    | zero => rfl
    | succ k => simp [List.set, List.eraseIdx, ih]

theorem obstacleCallback_obstacles (s : GameState) (k : Nat) :
    (obstacleCallback s k).obstacles =
      match s.obstacles[k]? with
      | none => s.obstacles
      | some o =>
        if (moveObstacle o s.gameSpeed).position.z > 20 then s.obstacles.eraseIdx k
        else s.obstacles.set k (moveObstacle o s.gameSpeed) := by
  unfold obstacleCallback
  split
  · rfl
  · simp only [gameOver]
    split_ifs <;> simp [eraseIdx_set_self]

theorem obstacleCallback_isGameOver (s : GameState) (k : Nat) :
    (obstacleCallback s k).isGameOver =
      (s.isGameOver ||
        match s.obstacles[k]? with
        | none => false
        | some o => checkCollision s.car (moveObstacle o s.gameSpeed)) := by
  unfold obstacleCallback
  split
  · simp
  · simp only [gameOver]
    split_ifs with h1 h2 h2 <;> simp [h2]

theorem obstacleCallback_noneBehind (s : GameState) (k : Nat) (h : noneBehind s) :
    noneBehind (obstacleCallback s k) := by
  intro o ho
  rw [obstacleCallback_obstacles] at ho
  split at ho
  · exact h o ho
  · split_ifs at ho with hz
    · exact h o (List.mem_of_mem_eraseIdx ho)
    · rcases List.mem_or_eq_of_mem_set ho with hmem | heq
      · exact h o hmem
      · rw [heq]
        exact not_lt.mp hz

theorem forEachFrom_noneBehind (n k : Nat) (s : GameState) (h : noneBehind s) :
    noneBehind (forEachFrom n k s) := by
  induction n generalizing k s with
  | zero => exact h
  | succ n ih => exact ih (k + 1) _ (obstacleCallback_noneBehind s k h)

theorem updateGame_noneBehind (s : GameState) (rSpawn rLane : ℚ) (h : noneBehind s) :
    noneBehind (updateGame s rSpawn rLane) := by
  have h1 : noneBehind { s with score := s.score + ⌊s.gameSpeed⌋ } := h
  unfold updateGame
  split_ifs with hover hspawn
  · exact h
  · intro o ho
    simp only [createObstacle, List.mem_append, List.mem_singleton] at ho
    rcases ho with hmem | heq
    · exact forEachFrom_noneBehind _ 0 _ h1 o hmem
    · rw [heq]
      norm_num
  · exact forEachFrom_noneBehind _ 0 _ h1

theorem step_noneBehind (s : GameState) (e : Event) (h : noneBehind s) :
    noneBehind (step s e) := by
  cases e with
  | keyDown key =>
    simp only [step, onKeyDown]
    split_ifs <;> exact h
  | keyUp key =>
    simp only [step, onKeyUp]
    split_ifs <;> exact h
  | frame rSpawn rLane => exact updateGame_noneBehind s rSpawn rLane h
  | restart rSpawn rLane =>
    refine updateGame_noneBehind _ rSpawn rLane ?_
    intro o ho
    simp at ho

theorem run_noneBehind (events : List Event) (s : GameState) (h : noneBehind s) :
    noneBehind (run s events) := by
  induction events generalizing s with
  | nil => exact h
  | cons e es ih => exact ih (step s e) (step_noneBehind s e h)

/-- C6: from any state with an empty registry (the reset state in
particular), after every finite sequence of key events, frames (`updateGame`
ticks with any draws) and restarts, no obstacle of the registry has depth
`z > 20`; so after each tick every obstacle that crossed the threshold in it
is gone, although removal is a `splice` inside the running `forEach`. -/
theorem no_obstacle_behind_threshold (s : GameState) (h : s.obstacles = [])
    (events : List Event) (o : Mesh) (ho : o ∈ (run s events).obstacles) :
    o.position.z ≤ 20 :=
  run_noneBehind events s (by intro o ho; simp [h] at ho) o ho

theorem no_obstacle_behind_threshold_witness :
    initialState.obstacles = [] ∧
      obstacleAt 0 (-500) ∈ (run initialState [Event.frame (1 / 100) (1 / 2)]).obstacles ∧
      (obstacleAt 0 (-500)).position.z ≤ 20 :=
  ⟨rfl,
   by norm_num [run, step, animate, updateGame, initialState, forEachObstacles, forEachFrom,
        createObstacle, obstacleAt, LANE_WIDTH],
   no_obstacle_behind_threshold initialState rfl [Event.frame (1 / 100) (1 / 2)] _
     (by norm_num [run, step, animate, updateGame, initialState, forEachObstacles, forEachFrom,
        createObstacle, obstacleAt, LANE_WIDTH])⟩

/-- C10 at its failing input: with the car at the origin, gameSpeed `10` and
the registry `[(4, 20), (-4, 0)]` (lane, depth), the tick moves the first
obstacle to depth `21` and splices it out; the second one slides to index `0`,
is never visited, and is still at depth `0` after the tick instead of `1`. -/
theorem obstacle_after_removed_not_advanced :
    (updateGame (sampleState [obstacleAt 4 20, obstacleAt (-4) 0] 10 false) (1 / 2) 0).obstacles =
        [obstacleAt (-4) 0] ∧
      (obstacleAt (-4) 0).position.z ≠
        (obstacleAt (-4) 0).position.z +
          (sampleState [obstacleAt 4 20, obstacleAt (-4) 0] 10 false).gameSpeed * (1 / 10) := by
  norm_num [updateGame, sampleState, obstacleAt, forEachObstacles, forEachFrom, obstacleCallback,
    moveObstacle, checkCollision_iff, gameOver]

/-! ## Collisions during a tick -/

theorem obstacleCallback_sameRegistry (s t : GameState) (k : Nat) (h : sameRegistry s t) :
    sameRegistry (obstacleCallback s k) (obstacleCallback t k) := by
  obtain ⟨ho, hv⟩ := h
  exact ⟨by rw [obstacleCallback_obstacles, obstacleCallback_obstacles, ho, hv],
    by rw [obstacleCallback_gameSpeed, obstacleCallback_gameSpeed, hv]⟩

theorem forEachFrom_sameRegistry (n k : Nat) (s t : GameState) (h : sameRegistry s t) :
    sameRegistry (forEachFrom n k s) (forEachFrom n k t) := by
  induction n generalizing k s t with
  | zero => exact h
  | succ n ih => exact ih (k + 1) _ _ (obstacleCallback_sameRegistry s t k h)

theorem forEachObstacles_congr (s t : GameState) (h : sameRegistry s t) :
    (forEachObstacles s).obstacles = (forEachObstacles t).obstacles := by
  unfold forEachObstacles
  rw [h.1]
  exact (forEachFrom_sameRegistry _ 0 s t h).1

theorem forEachFrom_over_of_over (n k : Nat) (s : GameState) (h : s.isGameOver = true) :
    (forEachFrom n k s).isGameOver = true := by
  induction n generalizing k s with
  | zero => exact h
  | succ n ih =>
    refine ih (k + 1) _ ?_
    rw [obstacleCallback_isGameOver, h, Bool.true_or]

theorem forEachFrom_add (a b k : Nat) (s : GameState) :
    forEachFrom (a + b) k s = forEachFrom b (k + a) (forEachFrom a k s) := by
  induction a generalizing k s with
  | zero => simp [forEachFrom]
  | succ a ih =>
    rw [Nat.succ_add, forEachFrom, ih, forEachFrom]
    congr 1
    omega

theorem updateGame_obstacles (s : GameState) (rSpawn rLane : ℚ) (h : s.isGameOver = false) :
    (updateGame s rSpawn rLane).obstacles =
      (forEachObstacles s).obstacles ++
        (if rSpawn < 1 / 50 then
          [{ position := { x := ((⌊rLane * 3⌋ - 1 : ℤ) : ℚ) * LANE_WIDTH,
                           y := 1 / 2, z := -500 } }]
        else []) := by
  have hreg : sameRegistry { s with score := s.score + ⌊s.gameSpeed⌋ } s := ⟨rfl, rfl⟩
  unfold updateGame
  rw [if_neg (by simp [h])]
  split_ifs
  · simp only [createObstacle]
    rw [forEachObstacles_congr _ _ hreg]
  · rw [forEachObstacles_congr _ _ hreg, List.append_nil]

theorem updateGame_isGameOver (s : GameState) (rSpawn rLane : ℚ) (h : s.isGameOver = false) :
    (updateGame s rSpawn rLane).isGameOver =
      (forEachObstacles { s with score := s.score + ⌊s.gameSpeed⌋ }).isGameOver := by
  unfold updateGame
  simp only [h, Bool.false_eq_true, if_false]
  split_ifs <;> rfl

theorem forEachObstacles_over_of_collision (s t : GameState) (k : Nat) (o : Mesh)
    (hreg : sameRegistry t s) (hcar : t.car = s.car) (hk : k < s.obstacles.length)
    (hvisit : (forEachFrom k 0 s).obstacles[k]? = some o)
    (hcol : checkCollision s.car (moveObstacle o s.gameSpeed) = true) :
    (forEachObstacles t).isGameOver = true := by
  have hlen : t.obstacles.length = k + (1 + (s.obstacles.length - k - 1)) := by
    rw [hreg.1]
    omega
  unfold forEachObstacles
  rw [hlen, forEachFrom_add, forEachFrom_add]
  apply forEachFrom_over_of_over
  have hsame := forEachFrom_sameRegistry k 0 t s hreg
  simp only [forEachFrom, Nat.zero_add]
  rw [obstacleCallback_isGameOver, hsame.1, hvisit, forEachFrom_car, forEachFrom_gameSpeed,
    hcar, hreg.2]
  simp [hcol]

/-- C3, as stated, fails: with the car at the origin, gameSpeed `100` and one
obstacle at the car's exact position, the tick first moves the obstacle to
depth `10`, past the car's box, so the collision test is false, the game
stays running, and the second tick adds `100` to the score. -/
theorem fast_obstacle_passes_car :
    (sampleState [obstacleAt 0 0] 100 false).isGameOver = false ∧
      (obstacleAt 0 0).position = (sampleState [obstacleAt 0 0] 100 false).car.position ∧
      (updateGame (sampleState [obstacleAt 0 0] 100 false) (1 / 2) 0).isGameOver = false ∧
      (updateGame (updateGame (sampleState [obstacleAt 0 0] 100 false) (1 / 2) 0) (1 / 2) 0).score ≠
        (updateGame (sampleState [obstacleAt 0 0] 100 false) (1 / 2) 0).score := by
  norm_num [updateGame, sampleState, obstacleAt, forEachObstacles, forEachFrom, obstacleCallback,
    moveObstacle, checkCollision_iff, gameOver]

/-- C3, amended: in a running state with `gameSpeed ≥ 0` (so for every
gameSpeed in `[0, 100]`) whose registry holds exactly one obstacle, at the car's exact position, one
`updateGame` sets isGameOver to true exactly when `gameSpeed ≤ 30` (the
obstacle is moved by `gameSpeed * 0.1` before the test, and the boxes reach
`2 + 1` along z); in that case a second `updateGame` leaves the score
unchanged. -/
theorem collision_at_car_position (s : GameState) (o : Mesh) (r1 r2 r3 r4 : ℚ)
    (hrun : s.isGameOver = false) (h0 : 0 ≤ s.gameSpeed)
    (hreg : s.obstacles = [o]) (hpos : o.position = s.car.position) :
    ((updateGame s r1 r2).isGameOver = true ↔ s.gameSpeed ≤ 30) ∧
      (s.gameSpeed ≤ 30 →
        (updateGame (updateGame s r1 r2) r3 r4).score = (updateGame s r1 r2).score) := by
  have hiff : (updateGame s r1 r2).isGameOver = true ↔ s.gameSpeed ≤ 30 := by
    rw [updateGame_isGameOver s r1 r2 hrun]
    simp only [forEachObstacles, hreg, List.length_singleton, forEachFrom,
      obstacleCallback_isGameOver, hrun, Bool.false_or, List.getElem?_cons_zero,
      checkCollision_iff, moveObstacle, hpos, sub_self, abs_zero, add_sub_cancel_left]
    rw [abs_of_nonneg (by linarith)]
    constructor
    · rintro ⟨_, _, h⟩
      linarith
    · intro h
      exact ⟨by norm_num, by norm_num, by linarith⟩
  refine ⟨hiff, fun h => ?_⟩
  rw [updateGame_of_over _ r3 r4 (hiff.mpr h)]

theorem collision_at_car_position_witness :
    (sampleState [obstacleAt 0 0] 10 false).isGameOver = false ∧
      0 ≤ (sampleState [obstacleAt 0 0] 10 false).gameSpeed ∧
      (sampleState [obstacleAt 0 0] 10 false).obstacles = [obstacleAt 0 0] ∧
      (obstacleAt 0 0).position = (sampleState [obstacleAt 0 0] 10 false).car.position ∧
      (((updateGame (sampleState [obstacleAt 0 0] 10 false) (1 / 2) 0).isGameOver = true ↔
          (sampleState [obstacleAt 0 0] 10 false).gameSpeed ≤ 30) ∧
        ((sampleState [obstacleAt 0 0] 10 false).gameSpeed ≤ 30 →
          (updateGame (updateGame (sampleState [obstacleAt 0 0] 10 false) (1 / 2) 0)
              (1 / 100) (1 / 2)).score =
            (updateGame (sampleState [obstacleAt 0 0] 10 false) (1 / 2) 0).score)) :=
  ⟨rfl, by norm_num [sampleState], rfl, rfl,
   collision_at_car_position _ _ _ _ _ _ rfl (by norm_num [sampleState]) rfl rfl⟩

/-- C5, as stated, fails: with the car at the origin, gameSpeed `10`, the
registry `[(0, 0), (4, -100), (-4, 20)]` (lane, depth) and a spawn draw of
`0.01`, the first obstacle collides and the game is over, but the same tick
still moves the second obstacle to depth `-99`, removes the third (depth `21`)
and spawns a new obstacle. -/
theorem tick_continues_after_collision :
    checkCollision
        (sampleState [obstacleAt 0 0, obstacleAt 4 (-100), obstacleAt (-4) 20] 10 false).car
        (moveObstacle (obstacleAt 0 0) 10) = true ∧
      (updateGame (sampleState [obstacleAt 0 0, obstacleAt 4 (-100), obstacleAt (-4) 20] 10 false)
          (1 / 100) (1 / 2)).isGameOver = true ∧
      (updateGame (sampleState [obstacleAt 0 0, obstacleAt 4 (-100), obstacleAt (-4) 20] 10 false)
          (1 / 100) (1 / 2)).obstacles =
        [obstacleAt 0 1, obstacleAt 4 (-99), obstacleAt 0 (-500)] := by
  norm_num [updateGame, sampleState, obstacleAt, forEachObstacles, forEachFrom, obstacleCallback,
    moveObstacle, checkCollision_iff, gameOver, createObstacle, LANE_WIDTH]

/-- C5, amended: in a running state, when in a tick the collision test is
true for the obstacle visited at some iteration `k` of the `forEach`, the game
is over after the tick, and the tick itself runs to its end as ever: the score
gets `floor(gameSpeed)`, the registry is what the whole `forEach` leaves (the
same wherever the car is, so the same as without any collision), followed by a
new obstacle when the spawn draw is below `0.02`; only the next tick changes
nothing. -/
theorem collision_tick_runs_to_end (s : GameState) (rSpawn rLane r3 r4 : ℚ) (k : Nat)
    (o car2 : Mesh) (hrun : s.isGameOver = false) (hk : k < s.obstacles.length)
    (hvisit : (forEachFrom k 0 s).obstacles[k]? = some o)
    (hcol : checkCollision s.car (moveObstacle o s.gameSpeed) = true) :
    (updateGame s rSpawn rLane).isGameOver = true ∧
      (updateGame s rSpawn rLane).score = s.score + ⌊s.gameSpeed⌋ ∧
      (updateGame s rSpawn rLane).obstacles =
        (forEachObstacles s).obstacles ++
          (if rSpawn < 1 / 50 then
            [{ position := { x := ((⌊rLane * 3⌋ - 1 : ℤ) : ℚ) * LANE_WIDTH,
                             y := 1 / 2, z := -500 } }]
          else []) ∧
      (updateGame { s with car := car2 } rSpawn rLane).obstacles =
        (updateGame s rSpawn rLane).obstacles ∧
      updateGame (updateGame s rSpawn rLane) r3 r4 = updateGame s rSpawn rLane := by
  have hover : (updateGame s rSpawn rLane).isGameOver = true := by
    rw [updateGame_isGameOver s rSpawn rLane hrun]
    exact forEachObstacles_over_of_collision s _ k o ⟨rfl, rfl⟩ rfl hk hvisit hcol
  refine ⟨hover, updateGame_score s rSpawn rLane hrun, updateGame_obstacles s rSpawn rLane hrun,
    ?_, updateGame_of_over _ r3 r4 hover⟩
  rw [updateGame_obstacles s rSpawn rLane hrun,
    updateGame_obstacles { s with car := car2 } rSpawn rLane hrun]
  rw [forEachObstacles_congr { s with car := car2 } s ⟨rfl, rfl⟩]

theorem collision_tick_runs_to_end_witness :
    (sampleState [obstacleAt 0 0, obstacleAt 4 (-100)] 10 false).isGameOver = false ∧
      0 < (sampleState [obstacleAt 0 0, obstacleAt 4 (-100)] 10 false).obstacles.length ∧
      (forEachFrom 0 0 (sampleState [obstacleAt 0 0, obstacleAt 4 (-100)] 10 false)).obstacles[0]? =
        some (obstacleAt 0 0) ∧
      checkCollision (sampleState [obstacleAt 0 0, obstacleAt 4 (-100)] 10 false).car
        (moveObstacle (obstacleAt 0 0)
          (sampleState [obstacleAt 0 0, obstacleAt 4 (-100)] 10 false).gameSpeed) = true ∧
      (updateGame (sampleState [obstacleAt 0 0, obstacleAt 4 (-100)] 10 false)
        (1 / 100) (1 / 2)).isGameOver = true :=
  ⟨rfl, by simp [sampleState], rfl,
   by norm_num [checkCollision_iff, sampleState, obstacleAt, moveObstacle],
   (collision_tick_runs_to_end (sampleState [obstacleAt 0 0, obstacleAt 4 (-100)] 10 false)
      (1 / 100) (1 / 2) (1 / 2) 0 0 (obstacleAt 0 0) (obstacleAt 4 0) rfl
      (by simp [sampleState]) rfl
      (by norm_num [checkCollision_iff, sampleState, obstacleAt, moveObstacle])).1⟩

end CarGame
